import Mathlib

/-!
Verification of the configuration-resolution step of the installer
(`src/install_loader/src/config.rs`).  The Rust code builds an
`InstallerConfig` record from a root directory and a retry flag, joining
the root with four fixed relative segments and rendering a display string
through `windows_utilities::absolute_path_str`.

Paths are embedded as Rust `std::path::PathBuf` values under Windows path
semantics: a component list together with an absoluteness flag.  Rust path
equality compares components, so paths written with `/` and `\`
separators are equal when their components agree; the embedding mirrors
that by parsing a path string into its components.
-/

/-- A character is a Windows path separator (`/` or `\`). -/
def isSep (c : Char) : Bool := c == '/' || c == '\\'

/-- Split a character list into non-empty path components at separators,
accumulating the current component in reverse in `acc`. -/
def splitComponents : List Char → List Char → List String
  | [], acc => if acc.isEmpty then [] else [String.mk acc.reverse]
  | c :: cs, acc =>
    if isSep c then
      if acc.isEmpty then splitComponents cs []
      else String.mk acc.reverse :: splitComponents cs []
    else splitComponents cs (c :: acc)

/-- Absoluteness of a Windows path string: it starts with a separator
(root-relative) or with a drive letter followed by a colon.  The only
drive-prefixed path appearing in the specification scenarios,
`C:\Game`, is indeed absolute. -/
def pathIsAbsolute : List Char → Bool
  | [] => false
  | c :: rest =>
    if isSep c then true
    else
      match rest with
      | ':' :: _ => true
      | _ => false

/-- Shallow model of Rust `std::path::PathBuf` (Windows semantics):
an absoluteness flag plus the list of non-empty components.  Equality of
`PathBuf` values in Rust is component-wise, which this representation
captures directly. -/
structure PathBuf where
  absolute : Bool
  components : List String
deriving Repr, DecidableEq

/-- `PathBuf::from` / `PathBuf::new` on a string: parse it into components. -/
def PathBuf.parse (s : String) : PathBuf :=
  { absolute := pathIsAbsolute s.data
    components := splitComponents s.data [] }

/-- Rust `PathBuf::join`: when the argument is absolute it replaces the
receiver; otherwise its components are appended. -/
def PathBuf.join (p q : PathBuf) : PathBuf :=
  if q.absolute then q else ⟨p.absolute, p.components ++ q.components⟩

/-- Modelled from the spec: the body of
`windows_utilities::absolute_path_str` is not under `src/` (only its call
site in `config.rs` is).  Per the Path Display Formatter section it makes
a single attempt to resolve `path` to an absolute string against the host
filesystem and, on any failure, returns `fallback` verbatim instead of
propagating the error.  The host filesystem's single resolution attempt is
abstracted as the oracle `fsResolve`, which yields `none` on failure. -/
def absolute_path_str (fsResolve : PathBuf → Option String) (path : PathBuf)
    (fallback : String) : String :=
  match fsResolve path with
  | some s => s
  | none => fallback

/-- The `InstallerConfig` struct of `config.rs`.  The `ImString` display
field is modelled as a plain string (`ImString::new` only wraps the
rendered string). -/
structure InstallerConfig where
  sub_folder : PathBuf
  sub_folder_display : String
  logs_folder : PathBuf
  python_path : PathBuf
  is_retry : Bool
  server_info_path : PathBuf
  server_info_old : PathBuf
deriving Repr, DecidableEq

/-- `InstallerConfig::new` from `config.rs`, parameterised by the
filesystem oracle used by `absolute_path_str`. -/
def InstallerConfig.new (fsResolve : PathBuf → Option String) (root : PathBuf)
    (is_retry : Bool) : InstallerConfig :=
  let sub_folder := root
  let sub_folder_display :=
    absolute_path_str fsResolve sub_folder "couldn't determine path"
  let logs_folder := sub_folder.join (PathBuf.parse "INSTALLER_LOGS")
  let python_path := sub_folder.join (PathBuf.parse "python/python.exe")
  let server_info_path := sub_folder.join (PathBuf.parse "server-info.json")
  let server_info_old := sub_folder.join (PathBuf.parse "server-info-old.json")
  { sub_folder := sub_folder
    sub_folder_display := sub_folder_display
    logs_folder := logs_folder
    python_path := python_path
    is_retry := is_retry
    server_info_path := server_info_path
    server_info_old := server_info_old }

/-- C1: for every root `r` and retry flag `b` (and any filesystem oracle),
the four derived fields of `InstallerConfig::new` are exactly `r` joined
with the fixed segments `INSTALLER_LOGS`, `python/python.exe`,
`server-info.json` and `server-info-old.json`, with path equality. -/
theorem InstallerConfig.new_derived_paths (o : PathBuf → Option String)
    (r : PathBuf) (b : Bool) :
    (InstallerConfig.new o r b).logs_folder = r.join (PathBuf.parse "INSTALLER_LOGS") ∧
    (InstallerConfig.new o r b).python_path = r.join (PathBuf.parse "python/python.exe") ∧
    (InstallerConfig.new o r b).server_info_path = r.join (PathBuf.parse "server-info.json") ∧
    (InstallerConfig.new o r b).server_info_old = r.join (PathBuf.parse "server-info-old.json") :=
  ⟨rfl, rfl, rfl, rfl⟩

/-- C2: the retry flag is stored unchanged: for every root `r` and flag
`b`, `(InstallerConfig::new r b).is_retry = b`. -/
theorem InstallerConfig.new_retry_flag (o : PathBuf → Option String)
    (r : PathBuf) (b : Bool) :
    (InstallerConfig.new o r b).is_retry = b :=
  rfl

/-- C3: `InstallerConfig::new` is total: for every root (including the
empty path or one naming nothing on disk, both representable as `PathBuf`
values) and every flag, it returns the fully defined record below and has
no error case. -/
theorem InstallerConfig.new_total (o : PathBuf → Option String)
    (r : PathBuf) (b : Bool) :
    InstallerConfig.new o r b =
      { sub_folder := r
        sub_folder_display := absolute_path_str o r "couldn't determine path"
        logs_folder := r.join (PathBuf.parse "INSTALLER_LOGS")
        python_path := r.join (PathBuf.parse "python/python.exe")
        is_retry := b
        server_info_path := r.join (PathBuf.parse "server-info.json")
        server_info_old := r.join (PathBuf.parse "server-info-old.json") } :=
  rfl

/-- C4: each derived field keeps the root's absoluteness and extends the
root's components by the fixed hard-coded relative segment, so every
derived field is a subpath of `installRoot` and cannot vary
independently of it. -/
theorem InstallerConfig.new_subpath_of_root (o : PathBuf → Option String)
    (r : PathBuf) (b : Bool) :
    ((InstallerConfig.new o r b).logs_folder.absolute
        = (InstallerConfig.new o r b).sub_folder.absolute ∧
      (InstallerConfig.new o r b).logs_folder.components
        = (InstallerConfig.new o r b).sub_folder.components ++ ["INSTALLER_LOGS"]) ∧
    ((InstallerConfig.new o r b).python_path.absolute
        = (InstallerConfig.new o r b).sub_folder.absolute ∧
      (InstallerConfig.new o r b).python_path.components
        = (InstallerConfig.new o r b).sub_folder.components ++ ["python", "python.exe"]) ∧
    ((InstallerConfig.new o r b).server_info_path.absolute
        = (InstallerConfig.new o r b).sub_folder.absolute ∧
      (InstallerConfig.new o r b).server_info_path.components
        = (InstallerConfig.new o r b).sub_folder.components ++ ["server-info.json"]) ∧
    ((InstallerConfig.new o r b).server_info_old.absolute
        = (InstallerConfig.new o r b).sub_folder.absolute ∧
      (InstallerConfig.new o r b).server_info_old.components
        = (InstallerConfig.new o r b).sub_folder.components ++ ["server-info-old.json"]) :=
  ⟨⟨rfl, rfl⟩, ⟨rfl, rfl⟩, ⟨rfl, rfl⟩, ⟨rfl, rfl⟩⟩

/-- C5: `InstallerConfig::new` is deterministic: with the same filesystem
environment, two calls on equal inputs produce field-for-field equal
records. -/
theorem InstallerConfig.new_deterministic (o : PathBuf → Option String)
    (r r2 : PathBuf) (b b2 : Bool) (hr : r = r2) (hb : b = b2) :
    InstallerConfig.new o r b = InstallerConfig.new o r2 b2 := by
  subst hr
  subst hb
  rfl

/-- Witness for C5 at the concrete input `("C:\Game", true)` with an
always-failing resolution oracle. -/
theorem InstallerConfig.new_deterministic_witness :
    InstallerConfig.new (fun _ => none) (PathBuf.parse "C:\\Game") true =
      InstallerConfig.new (fun _ => none) (PathBuf.parse "C:\\Game") true :=
  InstallerConfig.new_deterministic (fun _ => none)
    (PathBuf.parse "C:\\Game") (PathBuf.parse "C:\\Game") true true rfl rfl

/-- C6: when absolute-path resolution fails on the root, construction
still completes: the display field is the literal placeholder, and every
other field is the same as it would be under any other filesystem
environment (in particular a non-failing one). -/
theorem InstallerConfig.new_display_fallback (o : PathBuf → Option String)
    (r : PathBuf) (b : Bool) (h : o r = none) :
    (InstallerConfig.new o r b).sub_folder_display = "couldn't determine path" ∧
    ∀ o2 : PathBuf → Option String,
      (InstallerConfig.new o r b).sub_folder = (InstallerConfig.new o2 r b).sub_folder ∧
      (InstallerConfig.new o r b).logs_folder = (InstallerConfig.new o2 r b).logs_folder ∧
      (InstallerConfig.new o r b).python_path = (InstallerConfig.new o2 r b).python_path ∧
      (InstallerConfig.new o r b).server_info_path
        = (InstallerConfig.new o2 r b).server_info_path ∧
      (InstallerConfig.new o r b).server_info_old
        = (InstallerConfig.new o2 r b).server_info_old ∧
      (InstallerConfig.new o r b).is_retry = (InstallerConfig.new o2 r b).is_retry := by
  refine ⟨?_, fun o2 => ⟨rfl, rfl, rfl, rfl, rfl, rfl⟩⟩
  simp [InstallerConfig.new, absolute_path_str, h]

/-- Witness for C6 at the concrete root `C:\Game` with an always-failing
resolution oracle. -/
theorem InstallerConfig.new_display_fallback_witness :
    (fun _ : PathBuf => (none : Option String)) (PathBuf.parse "C:\\Game") = none ∧
    (InstallerConfig.new (fun _ => none) (PathBuf.parse "C:\\Game") false).sub_folder_display
      = "couldn't determine path" :=
  ⟨rfl,
    (InstallerConfig.new_display_fallback (fun _ => none)
      (PathBuf.parse "C:\\Game") false rfl).1⟩

/-- C7: the concrete scenario `resolve("C:\Game", false)`: the record's
root, four derived paths and retry flag are exactly the backslash-joined
paths given in the specification. -/
theorem InstallerConfig.new_scenario_cgame (o : PathBuf → Option String) :
    (InstallerConfig.new o (PathBuf.parse "C:\\Game") false).sub_folder
      = PathBuf.parse "C:\\Game" ∧
    (InstallerConfig.new o (PathBuf.parse "C:\\Game") false).logs_folder
      = PathBuf.parse "C:\\Game\\INSTALLER_LOGS" ∧
    (InstallerConfig.new o (PathBuf.parse "C:\\Game") false).python_path
      = PathBuf.parse "C:\\Game\\python\\python.exe" ∧
    (InstallerConfig.new o (PathBuf.parse "C:\\Game") false).server_info_path
      = PathBuf.parse "C:\\Game\\server-info.json" ∧
    (InstallerConfig.new o (PathBuf.parse "C:\\Game") false).server_info_old
      = PathBuf.parse "C:\\Game\\server-info-old.json" ∧
    (InstallerConfig.new o (PathBuf.parse "C:\\Game") false).is_retry = false :=
  ⟨rfl, rfl, rfl, rfl, rfl, rfl⟩

/-- C8: the supplied root is copied into the record as-is:
`(InstallerConfig::new r b).sub_folder = r`. -/
theorem InstallerConfig.new_root_copied (o : PathBuf → Option String)
    (r : PathBuf) (b : Bool) :
    (InstallerConfig.new o r b).sub_folder = r :=
  rfl

/-- C10: construction succeeds on the empty root, each derived field
degenerating to the bare fixed segment while the root field stays the
empty path; no validation rejects the empty root. -/
theorem InstallerConfig.new_empty_root (o : PathBuf → Option String) (b : Bool) :
    (InstallerConfig.new o (PathBuf.parse "") b).sub_folder = PathBuf.parse "" ∧
    (InstallerConfig.new o (PathBuf.parse "") b).logs_folder
      = PathBuf.parse "INSTALLER_LOGS" ∧
    (InstallerConfig.new o (PathBuf.parse "") b).python_path
      = PathBuf.parse "python/python.exe" ∧
    (InstallerConfig.new o (PathBuf.parse "") b).server_info_path
      = PathBuf.parse "server-info.json" ∧
    (InstallerConfig.new o (PathBuf.parse "") b).server_info_old
      = PathBuf.parse "server-info-old.json" ∧
    (InstallerConfig.new o (PathBuf.parse "") b).is_retry = b :=
  ⟨rfl, rfl, rfl, rfl, rfl, rfl⟩

/-- C9 counterexample: with an always-failing resolution oracle and the
empty fallback message, `absolute_path_str` returns the empty string, so
it does not return a non-empty string for every fallback message. -/
theorem absolute_path_str_empty_fallback :
    absolute_path_str (fun _ => none) (PathBuf.parse "C:\\Game") "" = "" :=
  rfl

/-- C9 (amended): `absolute_path_str` is total, its result depends on the
resolution oracle only through the single value at `path` (one resolution
attempt), and it returns the resolved absolute string on success and the
fallback message verbatim on failure; the result is non-empty whenever
the fallback message is non-empty and any successful resolution is
non-empty. -/
theorem absolute_path_str_spec (o : PathBuf → Option String) (p : PathBuf)
    (m : String) :
    absolute_path_str o p m = (o p).getD m ∧
    (∀ s, o p = some s → absolute_path_str o p m = s) ∧
    (o p = none → absolute_path_str o p m = m) ∧
    (m ≠ "" → (∀ s, o p = some s → s ≠ "") → absolute_path_str o p m ≠ "") := by
  refine ⟨?_, ?_, ?_, ?_⟩
  · cases h : o p <;> simp [absolute_path_str, h]
  · intro s h
    simp [absolute_path_str, h]
  · intro h
    simp [absolute_path_str, h]
  · intro hm hs
    cases h : o p with
    | none => simpa [absolute_path_str, h] using hm
    | some s => simpa [absolute_path_str, h] using hs s h

/-- Witness for C9 (amended) at the concrete fallback used by the
installer and an always-failing resolution oracle. -/
theorem absolute_path_str_spec_witness :
    absolute_path_str (fun _ => none) (PathBuf.parse "C:\\Game")
        "couldn't determine path"
      = "couldn't determine path" ∧
    absolute_path_str (fun _ => none) (PathBuf.parse "C:\\Game")
        "couldn't determine path"
      ≠ "" :=
  ⟨(absolute_path_str_spec (fun _ => none) (PathBuf.parse "C:\\Game")
      "couldn't determine path").2.2.1 rfl,
    (absolute_path_str_spec (fun _ => none) (PathBuf.parse "C:\\Game")
      "couldn't determine path").2.2.2 (by decide) (fun s h => Option.noConfusion h)⟩
